import Mathlib

/-!
Verification of the poster-session-area core of the repository
`DamianUduevbo/CS4530-Individual-Project1`.

The embedding below follows `src/town/PosterSessionArea.ts`.  JavaScript
`string | undefined` fields become `Option String`, the numeric star count
becomes `Int` (the spec calls it an integer), and the `TownEmitter`
broadcast channel is made explicit: every operation that may call
`_emitAreaChanged` returns, next to the updated area, the list of area
models it broadcast during the call (in order).  Fallible code returns
`Except String`.

Parts of the repository that the claims depend on but that are not part of
the two source files (the `InteractableArea` base class and the
`TownsController` dispatcher, of which only the test file is available) are
modelled from the specification; each such definition carries a doc comment
starting with `Modelled from the spec:`.
-/

/-- The serializable `PosterSessionAreaModel` transported over the socket:
`id`, `stars`, optional `imageContents`, optional `title`
(`src/types/CoveyTownSocket`). -/
structure PosterSessionAreaModel where
  id : String
  stars : Int
  imageContents : Option String
  title : Option String
deriving Repr, DecidableEq

/-- The `BoundingBox` type: `x`, `y`, `width`, `height`. -/
structure BoundingBox where
  x : Int
  y : Int
  width : Int
  height : Int
deriving Repr, DecidableEq

/-- The state of a `PosterSessionArea` object, including the state it
inherits from `InteractableArea`: the identifier, the bounding box, the
occupant list (players are identified by their id), and the three content
fields `_stars`, `_title`, `_imageContents`. -/
structure PosterSessionArea where
  id : String
  boundingBox : BoundingBox
  occupants : List String
  stars : Int
  title : Option String
  imageContents : Option String
deriving Repr, DecidableEq

namespace PosterSessionArea

/-- The `PosterSessionArea` constructor (lines 36-60).  It stores
`Math.abs(stars)` and copies `title` and `imageContents` from the model;
the bounding box and id are passed to the base-class constructor and the
occupant list starts empty.  Each of the three assignments sits in a
`try`/`catch` in the source, but a plain assignment (and `Math.abs` on a
number) cannot throw, so the three `catch` branches are unreachable; the
embedding returns `Except` to keep the constructor's fallible signature. -/
def new (m : PosterSessionAreaModel) (coordinates : BoundingBox) :
    Except String PosterSessionArea :=
  Except.ok
    { id := m.id
      boundingBox := coordinates
      occupants := []
      stars := |m.stars|
      title := m.title
      imageContents := m.imageContents }

/-- `toModel` (lines 94-101): the transportable snapshot of the area. -/
def toModel (a : PosterSessionArea) : PosterSessionAreaModel :=
  { id := a.id
    stars := a.stars
    imageContents := a.imageContents
    title := a.title }

/-- Modelled from the spec: `InteractableArea.remove` (the base-class
removal invoked by `super.remove(player)` on line 70) is not among the
source files.  Section 4.1 of the spec describes `removeOccupant(player)`
as side effect only: it removes the player from the occupant set; the
content reset and the change event of the empty case belong to the variant
override below. -/
def removeOccupantBase (occupants : List String) (player : String) :
    List String :=
  occupants.filter (fun p => p ≠ player)

/-- `remove` (lines 69-77): calls the base-class removal, then, if the
occupant list has become empty (`this._occupants.length <= 0`), resets
`_stars` to `0`, `_title` and `_imageContents` to `undefined`, and calls
`_emitAreaChanged()`, which broadcasts `toModel` of the updated area. -/
def remove (a : PosterSessionArea) (player : String) :
    PosterSessionArea × List PosterSessionAreaModel :=
  let a1 : PosterSessionArea :=
    { a with occupants := removeOccupantBase a.occupants player }
  if a1.occupants.length ≤ 0 then
    let a2 : PosterSessionArea :=
      { a1 with stars := 0, title := none, imageContents := none }
    (a2, [toModel a2])
  else
    (a1, [])

/-- `updateModel` (lines 84-88): sets `_stars` to
`Math.abs(updatedModel.stars)`, `_title` to `updatedModel.title` and
`_imageContents` to `updatedModel.imageContents`.  The method performs no
broadcast, so its emission log is empty. -/
def updateModel (a : PosterSessionArea) (updatedModel : PosterSessionAreaModel) :
    PosterSessionArea × List PosterSessionAreaModel :=
  ({ a with
      stars := |updatedModel.stars|
      title := updatedModel.title
      imageContents := updatedModel.imageContents }, [])

/-- The `ITiledMapObject` fields used by `fromMapObject`: `name`, `x`, `y`
and the possibly-absent `width` and `height`. -/
structure ITiledMapObject where
  name : String
  x : Int
  y : Int
  width : Option Int
  height : Option Int
deriving Repr, DecidableEq

/-- JavaScript falsiness of a possibly-absent number: `!v` holds when the
value is `undefined` or `0`. -/
def jsFalsyNum : Option Int → Bool
  | none => true
  | some n => n = 0

/-- `fromMapObject` (lines 109-134): destructures `name`, `width`,
`height`; throws `Missing width and/or height in mapObject.` when
`!width || !height`; otherwise builds the empty initial model
(`stars := 0`, `imageContents` and `title` absent) and the bounding box
and calls the constructor. -/
def fromMapObject (mapObject : ITiledMapObject) :
    Except String PosterSessionArea :=
  if jsFalsyNum mapObject.width || jsFalsyNum mapObject.height then
    Except.error "Missing width and/or height in mapObject."
  else
    new
      { id := mapObject.name
        stars := 0
        imageContents := none
        title := none }
      { x := mapObject.x
        y := mapObject.y
        width := mapObject.width.getD 0
        height := mapObject.height.getD 0 }

/-- Modelled from the spec: `InteractableArea.add` (the base-class
occupant join) is not among the source files.  Section 4.1 describes
`addOccupant(player)` as side effect only: it adds the player to the
occupant set and touches no content field. -/
def addOccupant (a : PosterSessionArea) (player : String) :
    PosterSessionArea :=
  { a with occupants := a.occupants ++ [player] }

/-- Modelled from the spec: `incrementStars()` is listed in section 4.2 as
an operation of the poster variant but neither the `PosterSessionArea`
class nor the `TownsController` dispatcher that the test file exercises is
available beyond the area class itself.  Per the spec it increases the
star count by exactly 1 and returns the new count. -/
def incrementStars (a : PosterSessionArea) : PosterSessionArea × Int :=
  let a1 : PosterSessionArea := { a with stars := a.stars + 1 }
  (a1, a1.stars)

end PosterSessionArea

/-- JavaScript truthiness of a possibly-absent string: a title or image
payload is present and non-empty exactly when it is neither `undefined`
nor `""`. -/
def presentNonEmpty : Option String → Bool
  | none => false
  | some s => s ≠ ""

/-- The outcome of a dispatcher operation on a poster area: the (possibly
updated) area, the broadcasts emitted during the operation, and the error
it was rejected with, if any. -/
structure DispatchOutcome where
  area : PosterSessionArea
  broadcasts : List PosterSessionAreaModel
  rejection : Option String
deriving Repr, DecidableEq

/-- Modelled from the spec: the dispatcher operation
`createOrUpdatePosterArea` lives in `TownsController`, which is not among
the source files (only its test file is).  Per sections 4.3 and 7, after
the town/session/area checks (external collaborators, out of scope here)
it validates that title and image payload are both present and non-empty,
failing with `ValidationError` and touching nothing otherwise; on success
it calls `updateModel` and then emits exactly one change event carrying
the updated area's model. -/
def createOrUpdatePosterArea (a : PosterSessionArea)
    (m : PosterSessionAreaModel) : DispatchOutcome :=
  if presentNonEmpty m.title && presentNonEmpty m.imageContents then
    let step := a.updateModel m
    { area := step.1
      broadcasts := step.2 ++ [step.1.toModel]
      rejection := none }
  else
    { area := a, broadcasts := [], rejection := some "ValidationError" }

/-- Modelled from the spec: the dispatcher operation
`incrementPosterAreaStars` lives in `TownsController`, which is not among
the source files (only its test file is).  Per sections 4.3 and 8 it
increments the star count of the target area, emits exactly one change
event with the updated model, and returns the new count. -/
def incrementPosterAreaStars (a : PosterSessionArea) :
    DispatchOutcome × Int :=
  let step := a.incrementStars
  ({ area := step.1
     broadcasts := [step.1.toModel]
     rejection := none }, step.2)

/-- The reachable states of a poster session area: built by the
constructor or the `fromMapObject` factory, then mutated only through the
operations of the class and of the dispatcher (spec section 3,
"Lifecycle"). -/
inductive Reachable : PosterSessionArea → Prop
  | new (m : PosterSessionAreaModel) (c : BoundingBox) (a : PosterSessionArea)
      (h : PosterSessionArea.new m c = Except.ok a) : Reachable a
  | fromMapObject (o : PosterSessionArea.ITiledMapObject) (a : PosterSessionArea)
      (h : PosterSessionArea.fromMapObject o = Except.ok a) : Reachable a
  | addOccupant (a : PosterSessionArea) (p : String) (h : Reachable a) :
      Reachable (a.addOccupant p)
  | remove (a : PosterSessionArea) (p : String) (h : Reachable a) :
      Reachable (a.remove p).1
  | updateModel (a : PosterSessionArea) (m : PosterSessionAreaModel)
      (h : Reachable a) : Reachable (a.updateModel m).1
  | incrementStars (a : PosterSessionArea) (h : Reachable a) :
      Reachable a.incrementStars.1
  | createOrUpdate (a : PosterSessionArea) (m : PosterSessionAreaModel)
      (h : Reachable a) : Reachable (createOrUpdatePosterArea a m).area

/-- Claim C2: for every integer star count, positive, negative or zero,
both the constructor and `updateModel` store its absolute value; the sign
is never a reason for rejection. -/
theorem stars_stored_as_absolute_value (m : PosterSessionAreaModel)
    (c : BoundingBox) (a : PosterSessionArea) :
    (∃ b, PosterSessionArea.new m c = Except.ok b ∧ b.stars = |m.stars|) ∧
    (a.updateModel m).1.stars = |m.stars| :=
  ⟨⟨_, rfl, rfl⟩, rfl⟩

/-- Claim C7: `updateModel` replaces exactly the star count (as absolute
value), the title and the image payload as a unit, leaves the occupant
set (and the id and bounding box) unchanged, and emits no change event. -/
theorem updateModel_replaces_content_only (a : PosterSessionArea)
    (m : PosterSessionAreaModel) :
    (a.updateModel m).1.stars = |m.stars| ∧
    (a.updateModel m).1.title = m.title ∧
    (a.updateModel m).1.imageContents = m.imageContents ∧
    (a.updateModel m).1.occupants = a.occupants ∧
    (a.updateModel m).1.id = a.id ∧
    (a.updateModel m).1.boundingBox = a.boundingBox ∧
    (a.updateModel m).2 = [] :=
  ⟨rfl, rfl, rfl, rfl, rfl, rfl, rfl⟩

/-- Claim C3: `incrementStars` increases the stored star count by exactly
1 and returns the new count, and at the dispatcher level
`incrementPosterAreaStars` triggers exactly one broadcast whose model
carries the new count (both operations modelled from the spec, since the
dispatcher is not among the source files). -/
theorem incrementStars_adds_one_and_broadcasts (a : PosterSessionArea) :
    a.incrementStars.1.stars = a.stars + 1 ∧
    a.incrementStars.2 = a.stars + 1 ∧
    (incrementPosterAreaStars a).1.area.stars = a.stars + 1 ∧
    (incrementPosterAreaStars a).2 = a.stars + 1 ∧
    (incrementPosterAreaStars a).1.broadcasts =
      [(incrementPosterAreaStars a).1.area.toModel] ∧
    (incrementPosterAreaStars a).1.area.toModel.stars =
      (incrementPosterAreaStars a).2 :=
  ⟨rfl, rfl, rfl, rfl, rfl, rfl⟩

/-- Claim C1: removing the last occupant from a poster area whose
occupant set is non-empty resets the content (star count 0, title and
image payload absent) and emits exactly one change event, whose model
carries star count 0 and absent title and image payload. -/
theorem remove_last_occupant_resets (a : PosterSessionArea) (p : String)
    (hne : a.occupants ≠ [])
    (hlast : PosterSessionArea.removeOccupantBase a.occupants p = []) :
    (a.remove p).1.stars = 0 ∧
    (a.remove p).1.title = none ∧
    (a.remove p).1.imageContents = none ∧
    (a.remove p).2 =
      [{ id := a.id, stars := 0, imageContents := none, title := none }] := by
  unfold PosterSessionArea.remove
  simp [hlast, PosterSessionArea.toModel]

/-- Witness for C1: a concrete populated area whose single occupant is
removed. -/
theorem remove_last_occupant_resets_witness :
    (PosterSessionArea.remove
      { id := "P1", boundingBox := { x := 0, y := 0, width := 1, height := 1 },
        occupants := ["alice"], stars := 5, title := some "Keynote",
        imageContents := some "img" } "alice").1.stars = 0 ∧
    (PosterSessionArea.remove
      { id := "P1", boundingBox := { x := 0, y := 0, width := 1, height := 1 },
        occupants := ["alice"], stars := 5, title := some "Keynote",
        imageContents := some "img" } "alice").1.title = none ∧
    (PosterSessionArea.remove
      { id := "P1", boundingBox := { x := 0, y := 0, width := 1, height := 1 },
        occupants := ["alice"], stars := 5, title := some "Keynote",
        imageContents := some "img" } "alice").1.imageContents = none ∧
    (PosterSessionArea.remove
      { id := "P1", boundingBox := { x := 0, y := 0, width := 1, height := 1 },
        occupants := ["alice"], stars := 5, title := some "Keynote",
        imageContents := some "img" } "alice").2 =
      [{ id := "P1", stars := 0, imageContents := none, title := none }] :=
  remove_last_occupant_resets _ _ (by decide) (by decide)

/-- Claim C9: a call to `remove` made when the occupant set is already
empty, so that no non-empty-to-empty transition occurs, still resets the
content and still emits a change event: the `<= 0` guard fires on any
call that leaves the occupant list empty. -/
theorem remove_on_already_empty_area_fires (a : PosterSessionArea)
    (p : String) (h : a.occupants = []) :
    (a.remove p).1.stars = 0 ∧
    (a.remove p).1.title = none ∧
    (a.remove p).1.imageContents = none ∧
    (a.remove p).2 =
      [{ id := a.id, stars := 0, imageContents := none, title := none }] := by
  unfold PosterSessionArea.remove
  simp [h, PosterSessionArea.removeOccupantBase, PosterSessionArea.toModel]

/-- Witness for C9: removing a player from a concrete area with no
occupants still resets the content and broadcasts once. -/
theorem remove_on_already_empty_area_fires_witness :
    (PosterSessionArea.remove
      { id := "P2", boundingBox := { x := 0, y := 0, width := 2, height := 2 },
        occupants := [], stars := 7, title := some "Old",
        imageContents := some "blob" } "bob").1.stars = 0 ∧
    (PosterSessionArea.remove
      { id := "P2", boundingBox := { x := 0, y := 0, width := 2, height := 2 },
        occupants := [], stars := 7, title := some "Old",
        imageContents := some "blob" } "bob").1.title = none ∧
    (PosterSessionArea.remove
      { id := "P2", boundingBox := { x := 0, y := 0, width := 2, height := 2 },
        occupants := [], stars := 7, title := some "Old",
        imageContents := some "blob" } "bob").1.imageContents = none ∧
    (PosterSessionArea.remove
      { id := "P2", boundingBox := { x := 0, y := 0, width := 2, height := 2 },
        occupants := [], stars := 7, title := some "Old",
        imageContents := some "blob" } "bob").2 =
      [{ id := "P2", stars := 0, imageContents := none, title := none }] :=
  remove_on_already_empty_area_fires _ _ (by decide)

/-- Counterexample to claim C4 as stated: a map object whose width and
height are both present, but with width equal to 0, is rejected by
`fromMapObject`, so the geometry error does not fire exactly when width
or height is missing. -/
theorem fromMapObject_present_zero_width_fails :
    ({ name := "P1", x := 0, y := 0, width := some 0, height := some 5 } :
        PosterSessionArea.ITiledMapObject).width ≠ none ∧
    ({ name := "P1", x := 0, y := 0, width := some 0, height := some 5 } :
        PosterSessionArea.ITiledMapObject).height ≠ none ∧
    PosterSessionArea.fromMapObject
        { name := "P1", x := 0, y := 0, width := some 0, height := some 5 } =
      Except.error "Missing width and/or height in mapObject." :=
  ⟨by decide, by decide, rfl⟩

/-- Claim C4, amended: `fromMapObject` fails with the geometry error
exactly when the width or the height is missing or zero; for every map
object whose width and height are both present and nonzero it succeeds
and produces an area in its initial empty content state (star count 0,
title absent, image payload absent, no occupants). -/
theorem fromMapObject_geometry_check (o : PosterSessionArea.ITiledMapObject) :
    ((PosterSessionArea.jsFalsyNum o.width ||
        PosterSessionArea.jsFalsyNum o.height) = true →
      PosterSessionArea.fromMapObject o =
        Except.error "Missing width and/or height in mapObject.") ∧
    ((PosterSessionArea.jsFalsyNum o.width ||
        PosterSessionArea.jsFalsyNum o.height) = false →
      PosterSessionArea.fromMapObject o = Except.ok
        { id := o.name
          boundingBox :=
            { x := o.x, y := o.y, width := o.width.getD 0,
              height := o.height.getD 0 }
          occupants := []
          stars := 0
          title := none
          imageContents := none }) := by
  constructor
  · intro h
    simp [PosterSessionArea.fromMapObject, h]
  · intro h
    simp [PosterSessionArea.fromMapObject, h, PosterSessionArea.new]

/-- Witness for the amended C4: a concrete map object with nonzero width
and height yields the empty-content area, and one with an absent height
is rejected. -/
theorem fromMapObject_geometry_check_witness :
    PosterSessionArea.fromMapObject
        { name := "P3", x := 10, y := 20, width := some 3, height := some 4 } =
      Except.ok
        { id := "P3"
          boundingBox := { x := 10, y := 20, width := 3, height := 4 }
          occupants := []
          stars := 0
          title := none
          imageContents := none } ∧
    PosterSessionArea.fromMapObject
        { name := "P4", x := 0, y := 0, width := some 3, height := none } =
      Except.error "Missing width and/or height in mapObject." :=
  ⟨(fromMapObject_geometry_check
      { name := "P3", x := 10, y := 20, width := some 3, height := some 4 }).2
      (by decide),
   (fromMapObject_geometry_check
      { name := "P4", x := 0, y := 0, width := some 3, height := none }).1
      (by decide)⟩

/-- Claim C10: `fromMapObject` rejects with the geometry error every map
object whose width equals 0 or whose height equals 0, not only those with
an absent field: the `!width || !height` check rejects all falsy
values. -/
theorem fromMapObject_rejects_zero_geometry
    (o : PosterSessionArea.ITiledMapObject)
    (h : o.width = some 0 ∨ o.height = some 0) :
    PosterSessionArea.fromMapObject o =
      Except.error "Missing width and/or height in mapObject." := by
  rcases h with h | h <;>
    simp [PosterSessionArea.fromMapObject, PosterSessionArea.jsFalsyNum, h]

/-- Witness for C10: a map object with both dimensions present but
height 0 is rejected. -/
theorem fromMapObject_rejects_zero_geometry_witness :
    PosterSessionArea.fromMapObject
        { name := "P5", x := 1, y := 2, width := some 8, height := some 0 } =
      Except.error "Missing width and/or height in mapObject." :=
  fromMapObject_rejects_zero_geometry _ (Or.inr (by decide))

/-- Claim C5: construction never fails on the star-count field for any
sign of input — it succeeds on every model, storing the absolute value of
the star count and copying title and image payload — and any failure,
were one to occur, could only carry one of the two field-specific title
or image error messages (the `catch` branches of the source; they are
unreachable, because a plain assignment cannot throw, so the conditional
holds vacuously). -/
theorem construction_never_fails_on_star_sign (m : PosterSessionAreaModel)
    (c : BoundingBox) :
    (∃ a, PosterSessionArea.new m c = Except.ok a ∧ a.stars = |m.stars| ∧
      a.title = m.title ∧ a.imageContents = m.imageContents) ∧
    (∀ e, PosterSessionArea.new m c = Except.error e →
      e = "Title was not given or is invalid" ∨
      e = "Image content not given or invalid") := by
  refine ⟨⟨_, rfl, rfl, rfl, rfl⟩, ?_⟩
  intro e h
  simp [PosterSessionArea.new] at h

/-- Witness for C5: a concrete model with a negative star count is
accepted by the constructor. -/
theorem construction_never_fails_on_star_sign_witness :
    (∃ a, PosterSessionArea.new
        { id := "P6", stars := -9, imageContents := some "img",
          title := some "T" }
        { x := 0, y := 0, width := 1, height := 1 } = Except.ok a ∧
      a.stars = |(-9 : Int)| ∧ a.title = some "T" ∧
      a.imageContents = some "img") ∧
    (∀ e, PosterSessionArea.new
        { id := "P6", stars := -9, imageContents := some "img",
          title := some "T" }
        { x := 0, y := 0, width := 1, height := 1 } = Except.error e →
      e = "Title was not given or is invalid" ∨
      e = "Image content not given or invalid") :=
  construction_never_fails_on_star_sign _ _

/-- Claim C6: a create/update of poster content whose title is missing or
empty, or whose image payload is missing or empty, is rejected with
`ValidationError` and leaves the prior area content state and the
occupant set unchanged, with no broadcast (dispatcher modelled from the
spec, since `TownsController` is not among the source files). -/
theorem createOrUpdate_missing_field_rejected (a : PosterSessionArea)
    (m : PosterSessionAreaModel)
    (h : presentNonEmpty m.title = false ∨
      presentNonEmpty m.imageContents = false) :
    (createOrUpdatePosterArea a m).rejection = some "ValidationError" ∧
    (createOrUpdatePosterArea a m).area = a ∧
    (createOrUpdatePosterArea a m).broadcasts = [] := by
  rcases h with h | h <;> simp [createOrUpdatePosterArea, h]

/-- Witness for C6: a concrete update carrying an empty title is rejected
without mutation or broadcast. -/
theorem createOrUpdate_missing_field_rejected_witness :
    (createOrUpdatePosterArea
      { id := "P8", boundingBox := { x := 0, y := 0, width := 1, height := 1 },
        occupants := ["carol"], stars := 2, title := some "Old",
        imageContents := some "img" }
      { id := "P8", stars := 4, imageContents := some "img2",
        title := some "" }).rejection = some "ValidationError" ∧
    (createOrUpdatePosterArea
      { id := "P8", boundingBox := { x := 0, y := 0, width := 1, height := 1 },
        occupants := ["carol"], stars := 2, title := some "Old",
        imageContents := some "img" }
      { id := "P8", stars := 4, imageContents := some "img2",
        title := some "" }).area =
      { id := "P8", boundingBox := { x := 0, y := 0, width := 1, height := 1 },
        occupants := ["carol"], stars := 2, title := some "Old",
        imageContents := some "img" } ∧
    (createOrUpdatePosterArea
      { id := "P8", boundingBox := { x := 0, y := 0, width := 1, height := 1 },
        occupants := ["carol"], stars := 2, title := some "Old",
        imageContents := some "img" }
      { id := "P8", stars := 4, imageContents := some "img2",
        title := some "" }).broadcasts = [] :=
  createOrUpdate_missing_field_rejected _ _ (Or.inl (by decide))

/-- Claim C8: the star count of a poster session area is non-negative in
every reachable state: it is non-negative after construction, and every
operation of the class and of the dispatcher preserves this. -/
theorem reachable_stars_nonneg (a : PosterSessionArea) (h : Reachable a) :
    0 ≤ a.stars := by
  induction h with
  | new m c b hb =>
      simp [PosterSessionArea.new] at hb
      subst hb
      exact abs_nonneg m.stars
  | fromMapObject o b hb =>
      unfold PosterSessionArea.fromMapObject at hb
      split at hb
      · exact absurd hb (by simp)
      · simp [PosterSessionArea.new] at hb
        subst hb
        norm_num
  | addOccupant a p h ih =>
      simpa [PosterSessionArea.addOccupant] using ih
  | remove a p h ih =>
      by_cases hc :
        (PosterSessionArea.removeOccupantBase a.occupants p).length ≤ 0
      · simp [PosterSessionArea.remove, hc]
      · simpa [PosterSessionArea.remove, hc] using ih
  | updateModel a m h ih =>
      simpa [PosterSessionArea.updateModel] using abs_nonneg m.stars
  | incrementStars a h ih =>
      simp [PosterSessionArea.incrementStars]
      omega
  | createOrUpdate a m h ih =>
      by_cases hc :
        (presentNonEmpty m.title && presentNonEmpty m.imageContents) = true
      · simp [createOrUpdatePosterArea, hc, PosterSessionArea.updateModel]
      · simpa [createOrUpdatePosterArea, hc] using ih

/-- Witness for C8: a concrete area constructed from a model with a
negative star count is reachable and has a non-negative star count. -/
theorem reachable_stars_nonneg_witness :
    Reachable
      { id := "P7", boundingBox := { x := 0, y := 0, width := 1, height := 1 },
        occupants := [], stars := 3, title := none, imageContents := none } ∧
    (0 : Int) ≤
      ({ id := "P7", boundingBox := { x := 0, y := 0, width := 1, height := 1 },
         occupants := [], stars := 3, title := none,
         imageContents := none } : PosterSessionArea).stars :=
  ⟨Reachable.new { id := "P7", stars := -3, imageContents := none, title := none }
      { x := 0, y := 0, width := 1, height := 1 } _ rfl,
   reachable_stars_nonneg _
     (Reachable.new { id := "P7", stars := -3, imageContents := none, title := none }
        { x := 0, y := 0, width := 1, height := 1 } _ rfl)⟩
